import Mathlib

/-!
Verification of the three tutorial notebooks against their specification.

Part 1: `Convert_lsat_pathrow_latlon.ipynb` — the shapefile path/row lookup.

The notebook loads a WRS-2 shapefile layer, builds a `shapely` point from a
longitude/latitude pair, and linearly scans the layer's features for the first
one whose geometry contains the point and whose `MODE` attribute matches the
requested mode, then prints that feature's `PATH` and `ROW` attributes.

Embedding choices:
* A geometry is embedded as its containment predicate `Point → Bool`; the
  source's `shapely.wkt.loads(geom.ExportToWkt())` round-trip is the identity
  on the geometry, so `shape := feature.geom`.
* An OGR layer is embedded as the list of its features; `layer.GetFeature(i)`
  is `List.get?`: past the last feature OGR returns a null feature and the
  subsequent attribute access raises, which the embedding renders as `none`.
-/

/-- A longitude/latitude point (`shapely.geometry.Point(lon, lat)`). -/
structure Point where
  lon : ℚ
  lat : ℚ

/-- A geometry, embedded as its point-containment predicate. -/
def Geometry : Type := Point → Bool

/-- The library's `point.within(shape)` containment test. -/
def Point.within (point : Point) (shape : Geometry) : Bool :=
  shape point

/-- A shapefile feature: its geometry and its MODE/PATH/ROW attributes. -/
structure Feature where
  geom : Geometry
  MODE : String
  PATH : Int
  ROW : Int

/-- Embedding of `checkPoint(feature, point, mode)` from the first notebook:
`geom = feature.GetGeometryRef(); shape = shapely.wkt.loads(geom.ExportToWkt());
if point.within(shape) and feature['MODE']==mode: return True else: return False`. -/
def checkPoint (feature : Feature) (point : Point) (mode : String) : Bool :=
  let shape := feature.geom
  if point.within shape && (feature.MODE == mode) then true else false

/-- Embedding of the scan `i=0; while not checkPoint(layer.GetFeature(i), point, mode): i += 1`:
recursion on the features remaining from index `i`; an empty remainder is the
out-of-range access that raises in the source, rendered as `none`. -/
def scanFeatures (features : List Feature) (i : Nat) (point : Point) (mode : String) :
    Option Nat :=
  match features with
  | [] => none
  | f :: rest =>
      if checkPoint f point mode then some i else scanFeatures rest (i + 1) point mode

/-- The index at which the notebook's `while` loop stops, starting from `i = 0`. -/
def lookupIndex (layer : List Feature) (point : Point) (mode : String) : Option Nat :=
  scanFeatures layer 0 point mode

/-- Embedding of the whole lookup cell: run the loop, re-fetch the feature at the
final index, and return the pair printed by
`print('Path: ', feature['PATH'], 'Row: ', feature['ROW'])`. -/
def pathRowLookup (layer : List Feature) (point : Point) (mode : String) :
    Option (Int × Int) :=
  match lookupIndex layer point mode with
  | none => none
  | some i =>
      match layer.get? i with
      | none => none
      | some feature => some (feature.PATH, feature.ROW)

/-! Helper lemmas about the scan. -/

theorem scanFeatures_eq_none_iff (features : List Feature) (i : Nat) (point : Point)
    (mode : String) :
    scanFeatures features i point mode = none ↔
      ∀ f ∈ features, checkPoint f point mode = false := by
  induction features generalizing i with
  | nil => simp [scanFeatures]
  | cons f rest ih =>
      by_cases hf : checkPoint f point mode
      · simp [scanFeatures, hf]
      · rw [scanFeatures, if_neg hf, ih (i + 1)]
        constructor
        · intro h g hg
          rcases List.mem_cons.mp hg with rfl | hg
          · exact Bool.eq_false_iff.mpr hf
          · exact h g hg
        · intro h g hg
          exact h g (List.mem_cons_of_mem f hg)

theorem scanFeatures_eq_some (features : List Feature) (i : Nat) (point : Point)
    (mode : String) (k : Nat) (h : scanFeatures features i point mode = some k) :
    ∃ j, ∃ hj : j < features.length,
      k = i + j ∧
      checkPoint (features.get ⟨j, hj⟩) point mode = true ∧
      ∀ j', ∀ hj' : j' < features.length, j' < j →
        checkPoint (features.get ⟨j', hj'⟩) point mode = false := by
  induction features generalizing i with
  | nil => simp [scanFeatures] at h
  | cons f rest ih =>
      by_cases hf : checkPoint f point mode
      · rw [scanFeatures, if_pos hf] at h
        have hik : i = k := Option.some.inj h
        refine ⟨0, by simp, by omega, by simpa using hf, ?_⟩
        intro j' hj' hlt
        omega
      · rw [scanFeatures, if_neg hf] at h
        obtain ⟨j, hj, hk, hcheck, hbefore⟩ := ih (i + 1) h
        refine ⟨j + 1, Nat.succ_lt_succ hj, by omega, by simpa using hcheck, ?_⟩
        intro j' hj' hlt
        cases j' with
        | zero => simpa using Bool.eq_false_iff.mpr hf
        | succ j'' =>
            have hj'' : j'' < rest.length := Nat.lt_of_succ_lt_succ hj'
            simpa using hbefore j'' hj'' (Nat.lt_of_succ_lt_succ hlt)

theorem scanFeatures_isSome (features : List Feature) (i : Nat) (point : Point)
    (mode : String) (h : ∃ f ∈ features, checkPoint f point mode = true) :
    (scanFeatures features i point mode).isSome = true := by
  induction features generalizing i with
  | nil => simp at h
  | cons f rest ih =>
      by_cases hf : checkPoint f point mode
      · simp [scanFeatures, hf]
      · obtain ⟨g, hg, hcheck⟩ := h
        rcases List.mem_cons.mp hg with rfl | hg
        · exact absurd hcheck hf
        · simpa [scanFeatures, hf] using ih (i + 1) ⟨g, hg, hcheck⟩

/-- C2: checkPoint returns `true` exactly when the point lies within the
feature's geometry and the feature's MODE attribute equals the given mode
string; in every other case it returns `false`. -/
theorem checkPoint_iff (feature : Feature) (point : Point) (mode : String) :
    checkPoint feature point mode = true ↔
      (point.within feature.geom = true ∧ feature.MODE = mode) := by
  simp [checkPoint]

/-- C3: the lookup is a linear scan from index 0; given that some feature
matches, the loop stops at the least matching index and the PATH/ROW pair
returned is that of the least-index feature. -/
theorem pathRowLookup_least_index (layer : List Feature) (point : Point) (mode : String)
    (h : ∃ j, ∃ hj : j < layer.length, checkPoint (layer.get ⟨j, hj⟩) point mode = true) :
    ∃ i, ∃ hi : i < layer.length,
      lookupIndex layer point mode = some i ∧
      checkPoint (layer.get ⟨i, hi⟩) point mode = true ∧
      (∀ j, ∀ hj : j < layer.length, j < i → checkPoint (layer.get ⟨j, hj⟩) point mode = false) ∧
      pathRowLookup layer point mode =
        some ((layer.get ⟨i, hi⟩).PATH, (layer.get ⟨i, hi⟩).ROW) := by
  obtain ⟨j, hj, hcheck⟩ := h
  have hsome := scanFeatures_isSome layer 0 point mode ⟨_, layer.get_mem j hj, hcheck⟩
  obtain ⟨k, hk⟩ := Option.isSome_iff_exists.mp hsome
  obtain ⟨i, hi, hk0, hchecki, hbefore⟩ := scanFeatures_eq_some layer 0 point mode k hk
  have hki : k = i := by omega
  subst hki
  have hlook : lookupIndex layer point mode = some k := hk
  refine ⟨k, hi, hlook, hchecki, hbefore, ?_⟩
  simp [pathRowLookup, hlook, List.getElem?_eq_getElem hi]

/-- C4: the loop embedded by well-founded recursion on the remaining feature
indices is total; under the precondition that some feature matches, it
completes with an index. -/
theorem lookupIndex_total_of_match (layer : List Feature) (point : Point) (mode : String)
    (h : ∃ f ∈ layer, checkPoint f point mode = true) :
    (lookupIndex layer point mode).isSome = true :=
  scanFeatures_isSome layer 0 point mode h

/-- C5: the lookup performs no error handling of its own; it completes
normally exactly when some feature of the layer satisfies checkPoint, and
otherwise the scan runs past the last feature into the error branch
(rendered `none`), reachable at the public interface. -/
theorem pathRowLookup_isSome_iff (layer : List Feature) (point : Point) (mode : String) :
    (pathRowLookup layer point mode).isSome = true ↔
      ∃ f ∈ layer, checkPoint f point mode = true := by
  constructor
  · intro h
    cases hscan : scanFeatures layer 0 point mode with
    | none =>
        rw [pathRowLookup, lookupIndex, hscan] at h
        simp at h
    | some k =>
        obtain ⟨i, hi, hk0, hchecki, _⟩ := scanFeatures_eq_some layer 0 point mode k hscan
        exact ⟨layer.get ⟨i, hi⟩, layer.get_mem i hi, hchecki⟩
  · intro h
    have hsome := scanFeatures_isSome layer 0 point mode h
    obtain ⟨k, hk⟩ := Option.isSome_iff_exists.mp hsome
    obtain ⟨i, hi, hk0, _, _⟩ := scanFeatures_eq_some layer 0 point mode k hk
    have hki : k = i := by omega
    subst hki
    simp [pathRowLookup, lookupIndex, hk, List.getElem?_eq_getElem hi]

/-! Concrete instances: the notebook's input point (Boulder, Colorado) and a
small WRS-2 style layer with rectangular scene footprints. -/

/-- Containment predicate of a rectangular footprint. -/
def rectContains (lonMin lonMax latMin latMax : ℚ) : Geometry :=
  fun p =>
    decide (lonMin ≤ p.lon) && decide (p.lon ≤ lonMax) &&
    decide (latMin ≤ p.lat) && decide (p.lat ≤ latMax)

/-- The notebook's concrete input: `lon = -105.2705; lat = 40.0150`,
written as exact rationals. -/
def point0 : Point := { lon := mkRat (-1052705) 10000, lat := mkRat 400150 10000 }

/-- An ascending-mode scene whose footprint contains the point. -/
def sceneAsc : Feature :=
  { geom := rectContains (-107) (-103) 38 42, MODE := "A", PATH := 37, ROW := 209 }

/-- A descending-mode scene whose footprint does not contain the point. -/
def sceneAway : Feature :=
  { geom := rectContains (-90) (-88) 30 34, MODE := "D", PATH := 22, ROW := 39 }

/-- The descending path 34 / row 32 scene containing Boulder. -/
def sceneBoulder : Feature :=
  { geom := rectContains (-107) (-103) 38 42, MODE := "D", PATH := 34, ROW := 32 }

/-- A later descending scene that also contains the point, so the scan's
first-match behaviour is observable. -/
def sceneWide : Feature :=
  { geom := rectContains (-108) (-102) 37 43, MODE := "D", PATH := 35, ROW := 32 }

/-- A concrete layer on which the scan must skip two features. -/
def layer0 : List Feature := [sceneAsc, sceneAway, sceneBoulder, sceneWide]

/-- C1: counterexample. The program's input is a latitude/longitude point and
its output is the PATH/ROW attribute pair of the first containing feature:
on the notebook's own input it returns `(34, 32)`, which is not a
latitude/longitude coordinate pair for the input location in either
component order. The conversion direction in the claim is reversed. -/
theorem pathRowLookup_direction_counterexample :
    pathRowLookup layer0 point0 "D" = some (34, 32) ∧
    ¬ (((34 : ℚ), (32 : ℚ)) = (point0.lon, point0.lat) ∨
       ((34 : ℚ), (32 : ℚ)) = (point0.lat, point0.lon)) := by
  constructor
  · decide
  · decide

/-- C1 (amended): the first notebook converts a latitude/longitude point to
the satellite path/row identifier via shapefile lookup: when some feature of
the requested mode contains the point, the program returns the PATH and ROW
of a feature of that mode whose geometry contains the point. -/
theorem pathRowLookup_latlon_to_pathrow (layer : List Feature) (point : Point) (mode : String)
    (h : ∃ f ∈ layer, checkPoint f point mode = true) :
    ∃ f ∈ layer, point.within f.geom = true ∧ f.MODE = mode ∧
      pathRowLookup layer point mode = some (f.PATH, f.ROW) := by
  have hsome := scanFeatures_isSome layer 0 point mode h
  obtain ⟨k, hk⟩ := Option.isSome_iff_exists.mp hsome
  obtain ⟨i, hi, hk0, hchecki, _⟩ := scanFeatures_eq_some layer 0 point mode k hk
  have hki : k = i := by omega
  subst hki
  have hc : point.within (layer.get ⟨k, hi⟩).geom = true ∧ (layer.get ⟨k, hi⟩).MODE = mode := by
    simpa [checkPoint] using hchecki
  refine ⟨layer.get ⟨k, hi⟩, layer.get_mem k hi, hc.1, hc.2, ?_⟩
  simp [pathRowLookup, lookupIndex, hk, List.getElem?_eq_getElem hi]

/-- Witness for C1 (amended) at the notebook's concrete input. -/
theorem pathRowLookup_latlon_to_pathrow_witness :
    ∃ f ∈ layer0, point0.within f.geom = true ∧ f.MODE = "D" ∧
      pathRowLookup layer0 point0 "D" = some (f.PATH, f.ROW) :=
  pathRowLookup_latlon_to_pathrow layer0 point0 "D"
    ⟨sceneBoulder, List.Mem.tail _ (List.Mem.tail _ (List.Mem.head _)), by decide⟩

/-- Witness for C3 at the notebook's concrete input. -/
theorem pathRowLookup_least_index_witness :
    ∃ i, ∃ hi : i < layer0.length,
      lookupIndex layer0 point0 "D" = some i ∧
      checkPoint (layer0.get ⟨i, hi⟩) point0 "D" = true ∧
      (∀ j, ∀ hj : j < layer0.length, j < i → checkPoint (layer0.get ⟨j, hj⟩) point0 "D" = false) ∧
      pathRowLookup layer0 point0 "D" =
        some ((layer0.get ⟨i, hi⟩).PATH, (layer0.get ⟨i, hi⟩).ROW) :=
  pathRowLookup_least_index layer0 point0 "D" ⟨2, by decide, by decide⟩

/-- Witness for C4 at the notebook's concrete input. -/
theorem lookupIndex_total_of_match_witness :
    (lookupIndex layer0 point0 "D").isSome = true :=
  lookupIndex_total_of_match layer0 point0 "D"
    ⟨sceneBoulder, List.Mem.tail _ (List.Mem.tail _ (List.Mem.head _)), by decide⟩

/-!
Part 2: `smap_to_raster.ipynb` — converting SMAP HDF5 datasets to GeoTIFF
rasters.

Embedding choices:
* An HDF5 file is embedded as a finite map from dataset paths to
  two-dimensional arrays; `h5py`'s `get` is an association-list lookup
  returning `none` for a missing path (in the source, the later use of the
  `None` then raises, which the embedding renders as `none` overall).
* A numpy 2-d array is its shape `(rows, cols)` plus its row-major entries;
  `.min()`/`.max()` raise on an empty array, rendered as `none`.
* `smap2raster` returns the raster that `driver.Create` + `SetGeoTransform` +
  `SetProjection` + `WriteArray` produce, or `none` on any raising path
  (missing dataset, empty extent arrays, or the `ZeroDivisionError` of
  `xres`/`yres` when a data dimension is 0).
-/

/-- A numpy 2-d array: shape `(rows, cols)` and row-major entries. -/
structure NDArray where
  rows : Nat
  cols : Nat
  entries : List ℚ
  deriving DecidableEq

/-- An HDF5 file: a finite map from dataset paths to arrays. -/
structure H5File where
  items : List (String × NDArray)
  deriving DecidableEq

/-- Embedding of `h5file.get(path)`. -/
def H5File.get (h5File : H5File) (path : String) : Option NDArray :=
  (h5File.items.find? (fun e => e.1 == path)).map (fun e => e.2)

/-- Embedding of `.min()` on a numpy array (raises when empty). -/
def npMin : List ℚ → Option ℚ
  | [] => none
  | x :: xs => some (xs.foldl min x)

/-- Embedding of `.max()` on a numpy array (raises when empty). -/
def npMax : List ℚ → Option ℚ
  | [] => none
  | x :: xs => some (xs.foldl max x)

/-- The GDAL pixel type used by the notebook (`gdal.GDT_Float32`). -/
inductive GDALDataType where
  | gdtFloat32
  deriving DecidableEq

/-- The GeoTIFF raster produced by `driver.Create` and the subsequent
`SetGeoTransform`/`SetProjection`/`WriteArray` calls. -/
structure Raster where
  name : String
  width : Nat
  height : Nat
  bands : Nat
  dtype : GDALDataType
  geotransform : ℚ × ℚ × ℚ × ℚ × ℚ × ℚ
  epsg : Nat
  banddata : List ℚ
  deriving DecidableEq

/-- Embedding of `smap2raster(inputFile, group, dataset)` from the notebook:
read the group's dataset and the top-level `cell_lat`/`cell_lon` arrays,
compute the extents and resolutions, and create a one-band Float32 GeoTIFF
named `dataset + 'Raster.tif'` with geotransform
`(xmin, xres, 0, ymax, 0, -yres)` and EPSG:4326 projection. -/
def smap2raster (h5File : H5File) (group dataset : String) : Option Raster := do
  let np_data ← h5File.get (group ++ "/" ++ dataset)
  let np_lat ← h5File.get "cell_lat"
  let np_lon ← h5File.get "cell_lon"
  let xmin ← npMin np_lon.entries
  let xmax ← npMax np_lon.entries
  let ymin ← npMin np_lat.entries
  let ymax ← npMax np_lat.entries
  if np_data.cols = 0 ∨ np_data.rows = 0 then none
  else
    let xres := (xmax - xmin) / (np_data.cols : ℚ)
    let yres := (ymax - ymin) / (np_data.rows : ℚ)
    some { name := dataset ++ "Raster.tif"
           width := np_data.cols
           height := np_data.rows
           bands := 1
           dtype := GDALDataType.gdtFloat32
           geotransform := (xmin, xres, 0, ymax, 0, -yres)
           epsg := 4326
           banddata := np_data.entries }

/-- Embedding of the loop
`for i in range(0, len(datasets)): smap2raster(file_path, which_group, datasets[i])`:
the rasters produced in order, paired with whether the loop completed
normally (an exception in one call aborts the remaining iterations). -/
def rasterLoop (h5File : H5File) (group : String) : List String → List Raster × Bool
  | [] => ([], true)
  | d :: rest =>
      match smap2raster h5File group d with
      | none => ([], false)
      | some r =>
          let res := rasterLoop h5File group rest
          (r :: res.1, res.2)

/-- Anatomy of a successful `smap2raster` run: every field of the produced
raster in terms of the file's contents. -/
theorem smap2raster_eq_some (h5File : H5File) (group dataset : String) (r : Raster)
    (hr : smap2raster h5File group dataset = some r) :
    ∃ np_data np_lat np_lon : NDArray, ∃ xmin xmax ymin ymax : ℚ,
      h5File.get (group ++ "/" ++ dataset) = some np_data ∧
      h5File.get "cell_lat" = some np_lat ∧
      h5File.get "cell_lon" = some np_lon ∧
      npMin np_lon.entries = some xmin ∧
      npMax np_lon.entries = some xmax ∧
      npMin np_lat.entries = some ymin ∧
      npMax np_lat.entries = some ymax ∧
      ¬ (np_data.cols = 0 ∨ np_data.rows = 0) ∧
      r = { name := dataset ++ "Raster.tif"
            width := np_data.cols
            height := np_data.rows
            bands := 1
            dtype := GDALDataType.gdtFloat32
            geotransform := (xmin, (xmax - xmin) / (np_data.cols : ℚ), 0, ymax, 0,
              -((ymax - ymin) / (np_data.rows : ℚ)))
            epsg := 4326
            banddata := np_data.entries } := by
  simp only [smap2raster, bind, Option.bind_eq_some] at hr
  obtain ⟨np_data, hdata, np_lat, hlat, np_lon, hlon, xmin, hxmin, xmax, hxmax,
    ymin, hymin, ymax, hymax, hr⟩ := hr
  refine ⟨np_data, np_lat, np_lon, xmin, xmax, ymin, ymax,
    hdata, hlat, hlon, hxmin, hxmax, hymin, hymax, ?_, ?_⟩
  · intro hz
    rw [if_pos hz] at hr
    exact Option.noConfusion hr
  · by_cases hz : np_data.cols = 0 ∨ np_data.rows = 0
    · rw [if_pos hz] at hr
      exact absurd hr (by simp)
    · rw [if_neg hz] at hr
      exact (Option.some.inj hr).symm

/-- C7: the geotransform set on the output raster is exactly
`(xmin, (xmax - xmin)/num_cols, 0, ymax, 0, -((ymax - ymin)/num_rows))`, with
`xmin`/`xmax` the extremes of `cell_lon`, `ymin`/`ymax` the extremes of
`cell_lat`, and `num_cols`/`num_rows` the second/first dimension of the
extracted data array. -/
theorem smap2raster_geotransform (h5File : H5File) (group dataset : String)
    (np_data np_lat np_lon : NDArray) (xmin xmax ymin ymax : ℚ) (r : Raster)
    (hdata : h5File.get (group ++ "/" ++ dataset) = some np_data)
    (hlat : h5File.get "cell_lat" = some np_lat)
    (hlon : h5File.get "cell_lon" = some np_lon)
    (hxmin : npMin np_lon.entries = some xmin)
    (hxmax : npMax np_lon.entries = some xmax)
    (hymin : npMin np_lat.entries = some ymin)
    (hymax : npMax np_lat.entries = some ymax)
    (hr : smap2raster h5File group dataset = some r) :
    r.geotransform =
      (xmin, (xmax - xmin) / (np_data.cols : ℚ), 0, ymax, 0,
        -((ymax - ymin) / (np_data.rows : ℚ))) := by
  obtain ⟨d, la, lo, x1, x2, y1, y2, hd, hla, hlo, hx1, hx2, hy1, hy2, -, hreq⟩ :=
    smap2raster_eq_some h5File group dataset r hr
  cases Option.some.inj (hd.symm.trans hdata)
  cases Option.some.inj (hla.symm.trans hlat)
  cases Option.some.inj (hlo.symm.trans hlon)
  cases Option.some.inj (hx1.symm.trans hxmin)
  cases Option.some.inj (hx2.symm.trans hxmax)
  cases Option.some.inj (hy1.symm.trans hymin)
  cases Option.some.inj (hy2.symm.trans hymax)
  rw [hreq]

/-- C9: every successful `smap2raster` call, for any file, group, and dataset
name, produces a raster with one band, Float32 pixels, EPSG:4326 projection,
and width/height the second/first data dimension, with its georeferencing
taken from the file's top-level `cell_lat`/`cell_lon` datasets (the lookup
paths carry no group prefix, so the given group never affects them). -/
theorem smap2raster_fixed_properties (h5File : H5File) (group dataset : String)
    (np_data : NDArray) (r : Raster)
    (hdata : h5File.get (group ++ "/" ++ dataset) = some np_data)
    (hr : smap2raster h5File group dataset = some r) :
    r.bands = 1 ∧ r.dtype = GDALDataType.gdtFloat32 ∧ r.epsg = 4326 ∧
    r.width = np_data.cols ∧ r.height = np_data.rows ∧
    ∃ np_lat np_lon : NDArray, ∃ xmin xmax ymin ymax : ℚ,
      h5File.get "cell_lat" = some np_lat ∧
      h5File.get "cell_lon" = some np_lon ∧
      npMin np_lon.entries = some xmin ∧
      npMax np_lon.entries = some xmax ∧
      npMin np_lat.entries = some ymin ∧
      npMax np_lat.entries = some ymax ∧
      r.geotransform =
        (xmin, (xmax - xmin) / (np_data.cols : ℚ), 0, ymax, 0,
          -((ymax - ymin) / (np_data.rows : ℚ))) := by
  obtain ⟨d, la, lo, x1, x2, y1, y2, hd, hla, hlo, hx1, hx2, hy1, hy2, -, hreq⟩ :=
    smap2raster_eq_some h5File group dataset r hr
  cases Option.some.inj (hd.symm.trans hdata)
  subst hreq
  exact ⟨rfl, rfl, rfl, rfl, rfl,
    la, lo, x1, x2, y1, y2, hla, hlo, hx1, hx2, hy1, hy2, rfl⟩

/-- The name of every raster a successful call produces. -/
theorem smap2raster_name (h5File : H5File) (group dataset : String) (r : Raster)
    (hr : smap2raster h5File group dataset = some r) :
    r.name = dataset ++ "Raster.tif" := by
  obtain ⟨d, la, lo, x1, x2, y1, y2, -, -, -, -, -, -, -, -, hreq⟩ :=
    smap2raster_eq_some h5File group dataset r hr
  rw [hreq]

/-- C6: counterexample. On a file with no datasets at all, the first call of
the loop raises before creating any raster, the loop aborts, and no file
named `'sm_surface_wetness' + 'Raster.tif'` (nor any other) is produced, so
it is not true for every list of dataset names that each name is passed once
and each call produces one raster. -/
theorem rasterLoop_counterexample :
    rasterLoop (H5File.mk []) "Geophysical_Data"
        ["sm_surface_wetness", "soil_temp_layer2"] = ([], false) ∧
    ¬ ((rasterLoop (H5File.mk []) "Geophysical_Data"
          ["sm_surface_wetness", "soil_temp_layer2"]).1.map Raster.name =
        ["sm_surface_wetnessRaster.tif", "soil_temp_layer2Raster.tif"]) := by
  constructor
  · decide
  · decide

/-- C6 (amended): provided every call succeeds (each dataset present in the
group and the extent arrays usable), the loop passes each dataset name to
`smap2raster` exactly once, in list order, completes normally, and each call
produces exactly one raster named `dataset + 'Raster.tif'`. -/
theorem rasterLoop_spec (h5File : H5File) (group : String) (ds : List String)
    (h : ∀ d ∈ ds, (smap2raster h5File group d).isSome = true) :
    (rasterLoop h5File group ds).2 = true ∧
    (rasterLoop h5File group ds).1.map some = ds.map (smap2raster h5File group) ∧
    (rasterLoop h5File group ds).1.map Raster.name =
      ds.map (fun d => d ++ "Raster.tif") := by
  induction ds with
  | nil => simp [rasterLoop]
  | cons d rest ih =>
      have hd := h d (List.mem_cons_self d rest)
      obtain ⟨r, hr⟩ := Option.isSome_iff_exists.mp hd
      have hrest := ih fun x hx => h x (List.mem_cons_of_mem d hx)
      refine ⟨?_, ?_, ?_⟩
      · simp only [rasterLoop, hr]
        exact hrest.1
      · simp only [rasterLoop, hr, List.map_cons]
        exact congrArg (List.cons (some r)) hrest.2.1
      · simp only [rasterLoop, hr, List.map_cons]
        exact congrArg₂ List.cons (smap2raster_name h5File group d r hr) hrest.2.2

/-! Concrete instances for the raster notebook: a small SMAP-style file with
the two datasets the notebook converts and top-level extent arrays. -/

/-- A small top-level `cell_lat` array. -/
def latArr0 : NDArray := { rows := 1, cols := 2, entries := [10, 20] }

/-- A small top-level `cell_lon` array. -/
def lonArr0 : NDArray := { rows := 1, cols := 2, entries := [30, 40] }

/-- A small `sm_surface_wetness` dataset. -/
def wetnessArr : NDArray := { rows := 2, cols := 2, entries := [1, 2, 3, 4] }

/-- A small `soil_temp_layer2` dataset. -/
def tempArr : NDArray := { rows := 2, cols := 2, entries := [5, 6, 7, 8] }

/-- A concrete SMAP-style HDF5 file. -/
def smapFile : H5File :=
  { items := [ ("cell_lat", latArr0), ("cell_lon", lonArr0),
               ("Geophysical_Data/sm_surface_wetness", wetnessArr),
               ("Geophysical_Data/soil_temp_layer2", tempArr) ] }

/-- The raster `smap2raster` produces for `sm_surface_wetness` on `smapFile`;
its resolutions `(40 - 30)/2 = 5` and `(20 - 10)/2 = 5` are kept in the
symbolic form the function computes. -/
def wetnessRaster : Raster :=
  { name := "sm_surface_wetnessRaster.tif", width := 2, height := 2, bands := 1,
    dtype := GDALDataType.gdtFloat32,
    geotransform := (30, (40 - 30) / ((2 : Nat) : ℚ), 0, 20, 0,
      -((20 - 10) / ((2 : Nat) : ℚ))),
    epsg := 4326, banddata := [1, 2, 3, 4] }

/-- Witness for C7 on the concrete file. -/
theorem smap2raster_geotransform_witness :
    wetnessRaster.geotransform =
      (30, (40 - 30) / (wetnessArr.cols : ℚ), 0, 20, 0,
        -((20 - 10) / (wetnessArr.rows : ℚ))) :=
  smap2raster_geotransform smapFile "Geophysical_Data" "sm_surface_wetness"
    wetnessArr latArr0 lonArr0 30 40 10 20 wetnessRaster
    (by decide) (by decide) (by decide) (by decide) (by decide) (by decide) (by decide)
    rfl

/-- Witness for C9 on the concrete file. -/
theorem smap2raster_fixed_properties_witness :
    wetnessRaster.bands = 1 ∧ wetnessRaster.dtype = GDALDataType.gdtFloat32 ∧
    wetnessRaster.epsg = 4326 ∧ wetnessRaster.width = wetnessArr.cols ∧
    wetnessRaster.height = wetnessArr.rows ∧
    ∃ np_lat np_lon : NDArray, ∃ xmin xmax ymin ymax : ℚ,
      smapFile.get "cell_lat" = some np_lat ∧
      smapFile.get "cell_lon" = some np_lon ∧
      npMin np_lon.entries = some xmin ∧
      npMax np_lon.entries = some xmax ∧
      npMin np_lat.entries = some ymin ∧
      npMax np_lat.entries = some ymax ∧
      wetnessRaster.geotransform =
        (xmin, (xmax - xmin) / (wetnessArr.cols : ℚ), 0, ymax, 0,
          -((ymax - ymin) / (wetnessArr.rows : ℚ))) :=
  smap2raster_fixed_properties smapFile "Geophysical_Data" "sm_surface_wetness"
    wetnessArr wetnessRaster (by decide) rfl

/-- Witness for C6 (amended) on the concrete file and the notebook's dataset
list. -/
theorem rasterLoop_spec_witness :
    (rasterLoop smapFile "Geophysical_Data"
        ["sm_surface_wetness", "soil_temp_layer2"]).2 = true ∧
    (rasterLoop smapFile "Geophysical_Data"
        ["sm_surface_wetness", "soil_temp_layer2"]).1.map some =
      ["sm_surface_wetness", "soil_temp_layer2"].map
        (smap2raster smapFile "Geophysical_Data") ∧
    (rasterLoop smapFile "Geophysical_Data"
        ["sm_surface_wetness", "soil_temp_layer2"]).1.map Raster.name =
      ["sm_surface_wetness", "soil_temp_layer2"].map (fun d => d ++ "Raster.tif") :=
  rasterLoop_spec smapFile "Geophysical_Data"
    ["sm_surface_wetness", "soil_temp_layer2"] (by decide)

/-!
Part 3: `Ipyparallel_tutorial.ipynb` — the squares cell
`squares = c.map_sync(lambda x: x**2, range(1,28))`.
-/

/-- Modelled from the spec: the cluster view's `map_sync` method of the
third-party `ipyparallel` client (absent from the repository) is embedded as
the sequential map it refines — the claim itself fixes this embedding. -/
def map_sync (f : Int → Int) (xs : List Int) : List Int :=
  xs.map f

/-- Python's `range(a, b)`: the integers from `a` up to and excluding `b`. -/
def pyRange (a b : Int) : List Int :=
  (List.range (b - a).toNat).map (fun k => a + k)

/-- The notebook's cell `squares = c.map_sync(lambda x: x**2, range(1,28))`. -/
def squares : List Int :=
  map_sync (fun x => x ^ 2) (pyRange 1 28)

/-- C8: under the embedding of `map_sync` as sequential map, the squares cell
produces exactly the 27 squares of the integers 1 through 27 — the square of
28 is absent, despite the prose saying the numbers run from 1 to 28. -/
theorem squares_spec :
    squares = [1, 4, 9, 16, 25, 36, 49, 64, 81, 100, 121, 144, 169, 196, 225,
      256, 289, 324, 361, 400, 441, 484, 529, 576, 625, 676, 729] ∧
    squares.length = 27 ∧ ((28 : Int) ^ 2) ∉ squares := by
  refine ⟨by decide, by decide, by decide⟩

/-!
Part 4: the file-system effects of `smap2raster` (claim C10).

The function's interaction with the file system is embedded as a state
transformer: the state holds the named files and a trace of file events.
`h5py.File(inputFile, 'r')` records a read-mode open (an open in mode `'r'`
cannot modify the file), `driver.Create(dataset+'Raster.tif', ...)` records
the creation of the raster file and writes it, and `h5File.close()` records
the close; it is the source's last statement, so on the non-raising path the
file is closed before the function returns, while on a raising path the
exception propagates before `driver.Create`, so nothing is written.
-/

/-- A file on disk: either an HDF5 file or a written GeoTIFF. -/
inductive FileData where
  | h5 (f : H5File)
  | tif (r : Raster)
  deriving DecidableEq

/-- A file event: open-with-mode, create, or close. -/
inductive FSEvent where
  | openFile (path mode : String)
  | createFile (path : String)
  | closeFile (path : String)
  deriving DecidableEq

/-- The file-system state: named files plus the trace of events so far. -/
structure FileSys where
  files : List (String × FileData)
  events : List FSEvent
  deriving DecidableEq

/-- Lookup of a file by name. -/
def fsLookup : List (String × FileData) → String → Option FileData
  | [], _ => none
  | (q, d) :: rest, p => if q == p then some d else fsLookup rest p

/-- Creating a file: replace the file of that name, or append it. -/
def fsWrite : List (String × FileData) → String → FileData → List (String × FileData)
  | [], p, d => [(p, d)]
  | (q, e) :: rest, p, d =>
      if q == p then (p, d) :: rest else (q, e) :: fsWrite rest p d

/-- Embedding of `smap2raster` as a file-system transformer: open the input
HDF5 read-only, run the conversion, write the raster file, close the input.
The boolean records normal completion; on a raising path (missing input, or
a raising conversion) the state keeps the partial trace and no raster is
written. -/
def smap2rasterFS (fs : FileSys) (inputFile group dataset : String) :
    FileSys × Bool :=
  match fsLookup fs.files inputFile with
  | some (FileData.h5 f) =>
      let fs1 : FileSys :=
        { fs with events := fs.events ++ [FSEvent.openFile inputFile "r"] }
      match smap2raster f group dataset with
      | some r =>
          let fs2 : FileSys :=
            { files := fsWrite fs1.files r.name (FileData.tif r),
              events := fs1.events ++ [FSEvent.createFile r.name] }
          ({ fs2 with events := fs2.events ++ [FSEvent.closeFile inputFile] }, true)
      | none => (fs1, false)
  | _ => (fs, false)

/-- Writing one name leaves every other name's lookup unchanged. -/
theorem fsLookup_fsWrite_ne (files : List (String × FileData)) (p q : String)
    (d : FileData) (hne : q ≠ p) :
    fsLookup (fsWrite files p d) q = fsLookup files q := by
  induction files with
  | nil =>
      simp [fsWrite, fsLookup, beq_eq_false_iff_ne.mpr (Ne.symm hne)]
  | cons e rest ih =>
      obtain ⟨a, b⟩ := e
      by_cases hap : a = p
      · subst hap
        simp [fsWrite, fsLookup, beq_eq_false_iff_ne.mpr (Ne.symm hne)]
      · have hap' : (a == p) = false := beq_eq_false_iff_ne.mpr hap
        by_cases haq : a = q
        · subst haq
          simp [fsWrite, fsLookup, hap']
        · simp [fsWrite, fsLookup, hap', beq_eq_false_iff_ne.mpr haq, ih]

/-- Writing a name makes its lookup the written file. -/
theorem fsLookup_fsWrite_self (files : List (String × FileData)) (p : String)
    (d : FileData) :
    fsLookup (fsWrite files p d) p = some d := by
  induction files with
  | nil => simp [fsWrite, fsLookup]
  | cons e rest ih =>
      obtain ⟨a, b⟩ := e
      by_cases hap : a = p
      · subst hap
        simp [fsWrite, fsLookup]
      · have hap' : (a == p) = false := beq_eq_false_iff_ne.mpr hap
        simp [fsWrite, fsLookup, hap', ih]

/-- C10: on every normally completing call, the input HDF5 file is opened in
read-only mode and closed before the function returns, and the only file
created or written is the raster `dataset + 'Raster.tif'`: every other name's
lookup is unchanged — in particular the input file, whenever its name is not
the raster's. -/
theorem smap2rasterFS_frame (fs : FileSys) (inputFile group dataset : String)
    (h : (smap2rasterFS fs inputFile group dataset).2 = true) :
    ∃ r : Raster,
      (smap2rasterFS fs inputFile group dataset).1.files =
        fsWrite fs.files (dataset ++ "Raster.tif") (FileData.tif r) ∧
      (smap2rasterFS fs inputFile group dataset).1.events =
        fs.events ++ [FSEvent.openFile inputFile "r",
          FSEvent.createFile (dataset ++ "Raster.tif"),
          FSEvent.closeFile inputFile] ∧
      fsLookup (smap2rasterFS fs inputFile group dataset).1.files
          (dataset ++ "Raster.tif") = some (FileData.tif r) ∧
      (∀ p, p ≠ dataset ++ "Raster.tif" →
        fsLookup (smap2rasterFS fs inputFile group dataset).1.files p =
          fsLookup fs.files p) ∧
      (inputFile ≠ dataset ++ "Raster.tif" →
        fsLookup (smap2rasterFS fs inputFile group dataset).1.files inputFile =
          fsLookup fs.files inputFile) := by
  cases hin : fsLookup fs.files inputFile with
  | none =>
      rw [smap2rasterFS, hin] at h
      exact absurd h (by simp)
  | some fd =>
      cases fd with
      | tif r0 =>
          rw [smap2rasterFS, hin] at h
          exact absurd h (by simp)
      | h5 f =>
          cases hr : smap2raster f group dataset with
          | none =>
              simp only [smap2rasterFS, hin, hr] at h
              exact Bool.noConfusion h
          | some r =>
              have hname : r.name = dataset ++ "Raster.tif" :=
                smap2raster_name f group dataset r hr
              have hres : smap2rasterFS fs inputFile group dataset =
                  ({ files := fsWrite fs.files (dataset ++ "Raster.tif")
                        (FileData.tif r),
                      events := fs.events ++ [FSEvent.openFile inputFile "r",
                        FSEvent.createFile (dataset ++ "Raster.tif"),
                        FSEvent.closeFile inputFile] }, true) := by
                simp [smap2rasterFS, hin, hr, hname]
              refine ⟨r, ?_, ?_, ?_, ?_, ?_⟩
              · rw [hres]
              · rw [hres]
              · rw [hres]
                exact fsLookup_fsWrite_self fs.files (dataset ++ "Raster.tif")
                  (FileData.tif r)
              · intro p hp
                rw [hres]
                exact fsLookup_fsWrite_ne fs.files (dataset ++ "Raster.tif") p
                  (FileData.tif r) hp
              · intro hp
                rw [hres,
                  fsLookup_fsWrite_ne fs.files (dataset ++ "Raster.tif") inputFile
                    (FileData.tif r) hp]
                exact hin

/-- A concrete disk state holding the SMAP file. -/
def disk0 : FileSys :=
  { files := [("SMAP_L4_SM_gph_20150331T013000_Vb1010_001.h5", FileData.h5 smapFile)],
    events := [] }

/-- Witness for C10 on the concrete disk state. -/
theorem smap2rasterFS_frame_witness :
    ∃ r : Raster,
      (smap2rasterFS disk0 "SMAP_L4_SM_gph_20150331T013000_Vb1010_001.h5"
          "Geophysical_Data" "sm_surface_wetness").1.files =
        fsWrite disk0.files ("sm_surface_wetness" ++ "Raster.tif") (FileData.tif r) ∧
      (smap2rasterFS disk0 "SMAP_L4_SM_gph_20150331T013000_Vb1010_001.h5"
          "Geophysical_Data" "sm_surface_wetness").1.events =
        disk0.events ++ [FSEvent.openFile "SMAP_L4_SM_gph_20150331T013000_Vb1010_001.h5" "r",
          FSEvent.createFile ("sm_surface_wetness" ++ "Raster.tif"),
          FSEvent.closeFile "SMAP_L4_SM_gph_20150331T013000_Vb1010_001.h5"] ∧
      fsLookup (smap2rasterFS disk0 "SMAP_L4_SM_gph_20150331T013000_Vb1010_001.h5"
          "Geophysical_Data" "sm_surface_wetness").1.files
        ("sm_surface_wetness" ++ "Raster.tif") = some (FileData.tif r) ∧
      (∀ p, p ≠ "sm_surface_wetness" ++ "Raster.tif" →
        fsLookup (smap2rasterFS disk0 "SMAP_L4_SM_gph_20150331T013000_Vb1010_001.h5"
            "Geophysical_Data" "sm_surface_wetness").1.files p =
          fsLookup disk0.files p) ∧
      ("SMAP_L4_SM_gph_20150331T013000_Vb1010_001.h5" ≠
          "sm_surface_wetness" ++ "Raster.tif" →
        fsLookup (smap2rasterFS disk0 "SMAP_L4_SM_gph_20150331T013000_Vb1010_001.h5"
            "Geophysical_Data" "sm_surface_wetness").1.files
          "SMAP_L4_SM_gph_20150331T013000_Vb1010_001.h5" =
          fsLookup disk0.files "SMAP_L4_SM_gph_20150331T013000_Vb1010_001.h5") :=
  smap2rasterFS_frame disk0 "SMAP_L4_SM_gph_20150331T013000_Vb1010_001.h5"
    "Geophysical_Data" "sm_surface_wetness" (by decide)
